import Mathlib

/-!
Verification development for the ChatBot-PDF repository (src/main.py).

The repository's locally-authored logic is:
* a pickle-file cache of one FAISS vector index per uploaded PDF
  (storeDocEmbeds, getDocEmbeds);
* a conversational turn history appended to by conversational_chat and the
  submit handler, reset by the "Reset Chat" button;
* the Streamlit rendering loop pairing past[i] with generated[i].

We give a shallow embedding of this logic.  External collaborators
(PyPDFLoader, OpenAIEmbeddings, the ConversationalRetrievalChain call) are
parameters of the embedded functions; the FAISS index construction and the
pickle module are modelled from their library contracts, as documented on
each definition.  Machine-level details (bytes of the uploaded file, the
embedding vectors) are abstracted to String and List Int.
-/

namespace ChatBotPDF

/-- Python-level exceptions that flow to the catch-all handler of main
(src/main.py lines 235-236).  unpicklingError is what pickle.load raises on
a corrupted file; indexError models IndexError; keyError models a
st.session_state lookup of an absent key; pdfReadError models a PyPDFLoader
failure; openAIError models a failure of the OpenAI-backed chain call
(timeout, rate limit, auth). -/
inductive PyErr where
  | unpicklingError
  | indexError
  | keyError
  | pdfReadError (msg : String)
  | openAIError (msg : String)
  deriving Repr, DecidableEq

/-- The FAISS vector store built by FAISS.from_documents: one embedding
vector per document segment, keyed by the segment text (src/main.py line
89). -/
structure Index where
  entries : List (String × List Int)
  deriving Repr, DecidableEq

/-- Bytes of a pickle file on disk: either the valid serialization of an
Index or corrupted bytes that pickle.load rejects. -/
inductive Blob where
  | valid (entries : List (String × List Int))
  | corrupt
  deriving Repr, DecidableEq

/-- pickle.dump of an Index (src/main.py line 94): the serialized form
records exactly the index contents. -/
def pickleDump (i : Index) : Blob :=
  Blob.valid i.entries

/-- pickle.load (src/main.py line 107): recovers the Index from a valid
blob, raises UnpicklingError on corrupted bytes.  Modelled from the pickle
module contract: load (dump x) = x and load rejects corrupt input. -/
def pickleLoad (b : Blob) : Except PyErr Index :=
  match b with
  | Blob.valid e => Except.ok { entries := e }
  | Blob.corrupt => Except.error PyErr.unpicklingError

/-- Squared L2 distance between two vectors, the FAISS IndexFlatL2 metric. -/
def sqDist (q v : List Int) : Int :=
  (List.zipWith (fun a b => (a - b) * (a - b)) q v).foldl (· + ·) 0

/-- Insert into a list sorted by the given comparison (used by topK). -/
def insertBy (le : α → α → Bool) (x : α) : List α → List α
  | [] => [x]
  | y :: ys => if le x y then x :: y :: ys else y :: insertBy le x ys

/-- Insertion sort by the given comparison (used by topK). -/
def sortBy (le : α → α → Bool) : List α → List α
  | [] => []
  | x :: xs => insertBy le x (sortBy le xs)

/-- Top-K retrieval from the index: the K segments whose embedding vectors
are nearest (squared L2) to the query vector, as performed by the retriever
handed to the chain (src/main.py line 166). -/
def topK (i : Index) (q : List Int) (k : Nat) : List String :=
  ((sortBy (fun a b => decide (a.1 ≤ b.1))
      (i.entries.map (fun e => (sqDist q e.2, e.1)))).take k).map (·.2)

/-- FAISS.from_documents data embeddings (src/main.py line 89).  Modelled
from the langchain/faiss library contract: each segment is embedded (a
failing embedding call propagates), and with zero documents the library
raises IndexError while accessing the first embedding, so an empty-but-valid
index is never produced. -/
def FAISS.fromDocuments (data : List String)
    (embed : String → Except PyErr (List Int)) : Except PyErr Index :=
  match data.mapM (fun s => (embed s).map (fun v => (s, v))) with
  | Except.error e => Except.error e
  | Except.ok entries =>
    if entries.isEmpty then Except.error PyErr.indexError
    else Except.ok { entries := entries }

/-- The file-system state the cache code touches: the pickle files keyed by
file name, the temporary files currently existing, and a counter of how many
times the builder (storeDocEmbeds, hence the embedding provider) has been
entered. -/
structure FS where
  pkl : String → Option Blob
  tmp : List String
  builds : Nat

/-- Name of the fresh temporary file tempfile.NamedTemporaryFile creates. -/
def freshTmpName (s : FS) : String :=
  "tmpfile" ++ toString s.tmp.length

/-- storeDocEmbeds file filename (src/main.py lines 74-94): write the
uploaded bytes to a temporary file (delete=False), load and split the PDF
(parse), embed and build the FAISS index, remove the temporary file, then
pickle the index to filename + ".pkl".  A parse or build failure raises
before os.remove runs, so the temporary file survives those paths. -/
def storeDocEmbeds (parse : String → Except PyErr (List String))
    (embed : String → Except PyErr (List Int))
    (file filename : String) (s : FS) : FS × Except PyErr Unit :=
  let tmpPath := freshTmpName s
  let s1 : FS := { s with tmp := tmpPath :: s.tmp, builds := s.builds + 1 }
  match parse file with
  | Except.error e => (s1, Except.error e)
  | Except.ok data =>
    match FAISS.fromDocuments data embed with
    | Except.error e => (s1, Except.error e)
    | Except.ok vectors =>
      let s2 : FS := { s1 with tmp := s1.tmp.erase tmpPath }
      ({ s2 with
          pkl := fun n =>
            if n = filename ++ ".pkl" then some (pickleDump vectors)
            else s2.pkl n },
        Except.ok ())

/-- getDocEmbeds file filename (src/main.py lines 97-109): if no pickle file
named filename + ".pkl" exists, build and store it via storeDocEmbeds; then
load the vectors from the pickle file and return them.  Any exception from
the build or from pickle.load propagates to the caller. -/
def getDocEmbeds (parse : String → Except PyErr (List String))
    (embed : String → Except PyErr (List Int))
    (file filename : String) (s : FS) : FS × Except PyErr Index :=
  let step : FS × Except PyErr Unit :=
    if (s.pkl (filename ++ ".pkl")).isNone
    then storeDocEmbeds parse embed file filename s
    else (s, Except.ok ())
  match step with
  | (s1, Except.error e) => (s1, Except.error e)
  | (s1, Except.ok _) =>
    match s1.pkl (filename ++ ".pkl") with
    | none => (s1, Except.error (PyErr.pdfReadError "missing file"))
    | some blob =>
      match pickleLoad blob with
      | Except.error e => (s1, Except.error e)
      | Except.ok v => (s1, Except.ok v)

/-- The value returned by calling the ConversationalRetrievalChain with a
question and the chat history (src/main.py line 115): a dictionary from
which the code reads the "answer" field. -/
structure ChainResult where
  answer : String
  deriving Repr, DecidableEq

/-- conversational_chat query (src/main.py lines 112-124): call the chain on
the query together with st.session_state["history"]; on success append
(query, answer) to the history and return the answer; a raised exception
propagates before the append runs.  The chain call is a parameter; the
function returns the updated history alongside the result. -/
def conversational_chat
    (chain : String × List (String × String) → Except PyErr ChainResult)
    (query : String) (history : List (String × String)) :
    List (String × String) × Except PyErr String :=
  match chain (query, history) with
  | Except.error e => (history, Except.error e)
  | Except.ok result =>
    (history ++ [(query, result.answer)], Except.ok result.answer)

/-- The st.session_state fields the chat UI uses.  past and generated are
Option because Streamlit session_state keys may be absent before their
initialization branch runs (src/main.py lines 176-180). -/
structure SessionState where
  history : List (String × String)
  past : Option (List String)
  generated : Option (List String)
  ready : Bool
  reset_chat : Bool
  deriving Repr, DecidableEq

/-- The greeting user message "Hey ! " (src/main.py lines 180 and 202). -/
def heyMsg : String := "Hey ! 👋"

/-- The greeting bot message for the uploaded file (src/main.py lines 177
and 203-205). -/
def helloMsg (name : String) : String :=
  "Hello ! Ask me anything about " ++ name ++ " 🤗"

/-- Greeting initialization (src/main.py lines 176-180): if "generated" is
not in st.session_state, set it to the singleton greeting; then likewise
for "past". -/
def initGreeting (name : String) (st : SessionState) : SessionState :=
  let st1 :=
    if st.generated.isNone
    then { st with generated := some [helloMsg name] } else st
  if st1.past.isNone
  then { st1 with past := some [heyMsg] } else st1

/-- The reset branch (src/main.py lines 199-207): when the reset_chat flag
is set, st.session_state["history"] becomes [], "past" and "generated"
become the singleton greeting turn, and the flag is cleared; otherwise the
state is untouched. -/
def resetStep (name : String) (st : SessionState) : SessionState :=
  if st.reset_chat then
    { st with
        history := []
        past := some [heyMsg]
        generated := some [helloMsg name]
        reset_chat := false }
  else st

/-- The submit branch (src/main.py lines 210-217): run conversational_chat
on the input (which appends to "history" on success), then append the input
to st.session_state["past"] and the output to st.session_state["generated"].
A failing chain call raises before any of the appends; a missing
session_state key raises a KeyError at its read, after the earlier appends
have happened. -/
def submitQuery
    (chain : String × List (String × String) → Except PyErr ChainResult)
    (input : String) (st : SessionState) :
    SessionState × Except PyErr String :=
  match conversational_chat chain input st.history with
  | (h1, Except.error e) => ({ st with history := h1 }, Except.error e)
  | (h1, Except.ok output) =>
    match st.past with
    | none => ({ st with history := h1 }, Except.error PyErr.keyError)
    | some p =>
      match st.generated with
      | none =>
        ({ st with history := h1, past := some (p ++ [input]) },
          Except.error PyErr.keyError)
      | some g =>
        ({ st with
            history := h1
            past := some (p ++ [input])
            generated := some (g ++ [output]) },
          Except.ok output)

/-- One iteration of the rendering loop (src/main.py lines 226-232): read
st.session_state["past"][i] and generated[i].  An absent key raises KeyError
and an out-of-range index raises IndexError. -/
def renderCell (st : SessionState) (g : List String) (i : Nat) :
    Except PyErr (String × String) :=
  match st.past with
  | none => Except.error PyErr.keyError
  | some p =>
    match p[i]?, g[i]? with
    | some u, some b => Except.ok (u, b)
    | _, _ => Except.error PyErr.indexError

/-- The rendering loop over the given indices, stopping at the first raised
exception. -/
def renderLoop (st : SessionState) (g : List String) :
    List Nat → Except PyErr (List (String × String))
  | [] => Except.ok []
  | i :: rest =>
    match renderCell st g i with
    | Except.error e => Except.error e
    | Except.ok c =>
      match renderLoop st g rest with
      | Except.error e => Except.error e
      | Except.ok cs => Except.ok (c :: cs)

/-- The rendering block (src/main.py lines 220-232): if
st.session_state["generated"] is non-empty, for each i below its length
display past[i] and generated[i]. -/
def render (st : SessionState) : Except PyErr (List (String × String)) :=
  match st.generated with
  | none => Except.error PyErr.keyError
  | some g =>
    if g.isEmpty then Except.ok []
    else renderLoop st g (List.range g.length)

/-- The llm argument built for the chain (src/main.py lines 165-167):
ChatOpenAI(temperature=0.0, model_name=MODEL).  The settings sidebar reads
MODEL from a selectbox and TEMPERATURE from the slider (lines 134-137), but
the constructor call passes the literal 0.0 as temperature. -/
structure ChatOpenAI where
  temperature : ℚ
  model_name : String
  deriving Repr, DecidableEq

/-- The sidebar temperature slider (src/main.py line 137): bounds 0.0 and
1.0, default value 0.618.  It yields the user-selected value t. -/
def temperatureSlider (t : ℚ) : ℚ := t

/-- The default value of the temperature slider (src/main.py line 137). -/
def temperatureDefault : ℚ := 618 / 1000

/-- Construction of the chain's llm from the sidebar settings (src/main.py
lines 165-167): the code writes ChatOpenAI(temperature=0.0,
model_name=MODEL), ignoring the TEMPERATURE variable read from the
slider. -/
def buildLLM (MODEL : String) (TEMPERATURE : ℚ) : ChatOpenAI :=
  { temperature := 0, model_name := MODEL }

/-- The paired-lists invariant of the chat UI: both the "past" and the
"generated" session keys are present and hold lists of equal length, so the
rendering loop's indices are in bounds. -/
def InvPG (st : SessionState) : Prop :=
  ∃ p g, st.past = some p ∧ st.generated = some g ∧ p.length = g.length

/-- A file system with no pickle files, no temporary files and no builds. -/
def emptyFS : FS :=
  { pkl := fun _ => none, tmp := [], builds := 0 }

/-- A file system whose only pickle file, doc.pdf.pkl, holds corrupted
bytes. -/
def corruptFS : FS :=
  { pkl := fun n => if n = "doc.pdf.pkl" then some Blob.corrupt else none
    tmp := []
    builds := 0 }

/-- A file system whose only pickle file, doc.pdf.pkl, is a valid cached
index. -/
def cachedFS : FS :=
  { pkl := fun n =>
      if n = "doc.pdf.pkl" then some (Blob.valid [("page one", [1])])
      else none
    tmp := []
    builds := 0 }

/-- A stub PDF loader yielding two segments for any input bytes. -/
def parseTwo : String → Except PyErr (List String) :=
  fun _ => Except.ok ["page one", "page two"]

/-- A stub PDF loader yielding zero segments for any input bytes. -/
def parseEmpty : String → Except PyErr (List String) :=
  fun _ => Except.ok []

/-- A stub PDF loader that always fails, as PyPDFLoader does on a broken
file. -/
def parseFail : String → Except PyErr (List String) :=
  fun _ => Except.error (PyErr.pdfReadError "EOF marker not found")

/-- A stub embedding provider mapping every segment to the vector [1]. -/
def embedOne : String → Except PyErr (List Int) :=
  fun _ => Except.ok [1]

/-- A stub chain call answering every question with a fixed answer. -/
def stubChain : String × List (String × String) → Except PyErr ChainResult :=
  fun _ => Except.ok { answer := "stub answer" }

/-- A stub chain call that always fails, as the OpenAI call does on a rate
limit. -/
def failChain : String × List (String × String) → Except PyErr ChainResult :=
  fun _ => Except.error (PyErr.openAIError "rate limit")

/-- A session state mid-conversation: one completed turn beyond the
greeting, with the reset flag set. -/
def exampleState : SessionState :=
  { history := [("q0", "a0")]
    past := some [heyMsg, "q0"]
    generated := some [helloMsg "doc.pdf", "a0"]
    ready := true
    reset_chat := true }

/-! Helper lemmas about the cache functions. -/

/-- Deserializing a serialized index recovers it exactly. -/
theorem pickleLoad_pickleDump (i : Index) :
    pickleLoad (pickleDump i) = Except.ok i := rfl

/-- storeDocEmbeds enters the builder exactly once on every path. -/
theorem storeDocEmbeds_builds
    (parse : String → Except PyErr (List String))
    (embed : String → Except PyErr (List Int))
    (file filename : String) (s : FS) :
    (storeDocEmbeds parse embed file filename s).1.builds = s.builds + 1 := by
  rcases hp : parse file with e | data <;> simp [storeDocEmbeds, hp]
  rcases hf : FAISS.fromDocuments data embed with e | vectors <;> simp [hf]

/-- On success, storeDocEmbeds stores a serialized index under
filename + ".pkl", removes its temporary file, and touches no other pickle
file. -/
theorem storeDocEmbeds_ok_state
    (parse : String → Except PyErr (List String))
    (embed : String → Except PyErr (List Int))
    (file filename : String) (s : FS)
    (h : (storeDocEmbeds parse embed file filename s).2 = Except.ok ()) :
    ∃ vec : Index,
      (storeDocEmbeds parse embed file filename s).1.pkl (filename ++ ".pkl")
          = some (pickleDump vec) ∧
      (storeDocEmbeds parse embed file filename s).1.tmp = s.tmp ∧
      ∀ n, n ≠ filename ++ ".pkl" →
        (storeDocEmbeds parse embed file filename s).1.pkl n = s.pkl n := by
  rcases hp : parse file with e | data <;> simp [storeDocEmbeds, hp] at h ⊢
  rcases hf : FAISS.fromDocuments data embed with e | vectors <;>
    simp [hf] at h ⊢
  intro n hn hc
  exact absurd hc hn

/-- When the pickle file for the key exists, getDocEmbeds skips the builder
and returns the state unchanged together with the result of deserializing
the cached blob. -/
theorem getDocEmbeds_of_some
    (parse : String → Except PyErr (List String))
    (embed : String → Except PyErr (List Int))
    (file filename : String) (s : FS) (blob : Blob)
    (h : s.pkl (filename ++ ".pkl") = some blob) :
    getDocEmbeds parse embed file filename s = (s, pickleLoad blob) := by
  unfold getDocEmbeds
  simp [h]
  cases blob <;> simp [pickleLoad]

/-- When the pickle file for the key exists, getDocEmbeds leaves the state
untouched. -/
theorem getDocEmbeds_isSome_state
    (parse : String → Except PyErr (List String))
    (embed : String → Except PyErr (List Int))
    (file filename : String) (s : FS)
    (h : (s.pkl (filename ++ ".pkl")).isSome = true) :
    (getDocEmbeds parse embed file filename s).1 = s := by
  obtain ⟨blob, hb⟩ := Option.isSome_iff_exists.mp h
  rw [getDocEmbeds_of_some parse embed file filename s blob hb]

/-- getDocEmbeds enters the builder at most once. -/
theorem getDocEmbeds_builds_le
    (parse : String → Except PyErr (List String))
    (embed : String → Except PyErr (List Int))
    (file filename : String) (s : FS) :
    (getDocEmbeds parse embed file filename s).1.builds ≤ s.builds + 1 := by
  rcases hk : s.pkl (filename ++ ".pkl") with _ | blob
  · unfold getDocEmbeds
    simp [hk]
    rcases hs : storeDocEmbeds parse embed file filename s with ⟨s1, r⟩
    have hb : s1.builds = s.builds + 1 := by
      have h2 := storeDocEmbeds_builds parse embed file filename s
      rw [hs] at h2
      exact h2
    rcases r with e | u
    · simp [hb]
    · rcases hp : s1.pkl (filename ++ ".pkl") with _ | blob
      · simp [hp, hb]
      · rcases blob with e | _ <;> simp [hp, pickleLoad, hb]
  · rw [getDocEmbeds_of_some parse embed file filename s blob hk]
    exact Nat.le_succ s.builds

/-- A blob that deserializes to an index is that index's serialization. -/
theorem pickleLoad_ok_eq (blob : Blob) (v : Index)
    (h : pickleLoad blob = Except.ok v) : blob = pickleDump v := by
  rcases blob with e | _
  · simp [pickleLoad] at h
    rw [← h]
    rfl
  · simp [pickleLoad] at h

/-- On success, the final state of getDocEmbeds holds, under the key, the
serialization of exactly the index it returns. -/
theorem getDocEmbeds_ok_pkl
    (parse : String → Except PyErr (List String))
    (embed : String → Except PyErr (List Int))
    (file filename : String) (s : FS) (v : Index)
    (h : (getDocEmbeds parse embed file filename s).2 = Except.ok v) :
    (getDocEmbeds parse embed file filename s).1.pkl (filename ++ ".pkl")
      = some (pickleDump v) := by
  rcases hk : s.pkl (filename ++ ".pkl") with _ | blob
  · unfold getDocEmbeds at h ⊢
    simp [hk] at h ⊢
    rcases hs : storeDocEmbeds parse embed file filename s with ⟨s1, r⟩
    rcases r with e | u
    · simp [hs] at h
    · obtain ⟨vec, hvec, -, -⟩ :=
        storeDocEmbeds_ok_state parse embed file filename s (by rw [hs])
      rw [hs] at hvec
      have hvec2 : s1.pkl (filename ++ ".pkl") = some (pickleDump vec) := hvec
      simp [hs, hvec2, pickleLoad_pickleDump] at h ⊢
      simp [h]
  · rw [getDocEmbeds_of_some parse embed file filename s blob hk] at h ⊢
    have hb := pickleLoad_ok_eq blob v h
    show s.pkl (filename ++ ".pkl") = some (pickleDump v)
    rw [hk, hb]

/-- The rendering loop succeeds when every visited cell succeeds. -/
theorem renderLoop_ok_of_forall (st : SessionState) (g : List String)
    (l : List Nat)
    (h : ∀ i ∈ l, ∃ a, renderCell st g i = Except.ok a) :
    ∃ out, renderLoop st g l = Except.ok out := by
  induction l with
  | nil => exact ⟨[], rfl⟩
  | cons x xs ih =>
    obtain ⟨a, ha⟩ := h x (List.mem_cons_self x xs)
    obtain ⟨out, hout⟩ := ih (fun i hi => h i (List.mem_cons_of_mem x hi))
    exact ⟨a :: out, by simp [renderLoop, ha, hout]⟩

/-- The rendering block succeeds whenever the past and generated lists are
both present with equal lengths. -/
theorem render_ok_of_inv (st : SessionState) (h : InvPG st) :
    ∃ l, render st = Except.ok l := by
  obtain ⟨p, g, hp, hg, hlen⟩ := h
  by_cases hge : g.isEmpty
  · exact ⟨[], by simp [render, hg, hge]⟩
  · simp only [render, hg, hge, Bool.false_eq_true, if_false]
    apply renderLoop_ok_of_forall
    intro i hi
    have hig : i < g.length := List.mem_range.mp hi
    have hip : i < p.length := by rw [hlen]; exact hig
    refine ⟨(p.get ⟨i, hip⟩, g.get ⟨i, hig⟩), ?_⟩
    simp only [renderCell, hp, List.getElem?_eq_getElem hip,
      List.getElem?_eq_getElem hig]
    rfl

/-! The claims. -/

/-- Claim C3: when the chain call succeeds, conversational_chat appends
exactly one (question, answer) pair at the end of the session history and
returns that same answer; all previously appended turns are unchanged, so
the history length increases by exactly one. -/
theorem C3_ask_appends_one_turn
    (chain : String × List (String × String) → Except PyErr ChainResult)
    (query : String) (history : List (String × String)) (result : ChainResult)
    (h : chain (query, history) = Except.ok result) :
    conversational_chat chain query history
        = (history ++ [(query, result.answer)], Except.ok result.answer) ∧
    (conversational_chat chain query history).1.length = history.length + 1 ∧
    (conversational_chat chain query history).1.take history.length
        = history := by
  have hc : conversational_chat chain query history
      = (history ++ [(query, result.answer)], Except.ok result.answer) := by
    simp [conversational_chat, h]
  refine ⟨hc, ?_, ?_⟩ <;> rw [hc]
  · simp
  · simp [List.take_left]

/-- Concrete instance of C3 with a stub chain on an empty history. -/
theorem C3_witness :
    stubChain ("hi", []) = Except.ok { answer := "stub answer" } ∧
    conversational_chat stubChain "hi" []
        = ([("hi", "stub answer")], Except.ok "stub answer") :=
  ⟨rfl,
    (C3_ask_appends_one_turn stubChain "hi" [] { answer := "stub answer" }
      rfl).1⟩

/-- Claim C4: when the chain call fails, conversational_chat fails carrying
the underlying cause, and the submit handler leaves the whole session state
— history included — exactly as it was: no partial turn is appended. -/
theorem C4_failure_preserves_history
    (chain : String × List (String × String) → Except PyErr ChainResult)
    (query : String) (st : SessionState) (e : PyErr)
    (h : chain (query, st.history) = Except.error e) :
    conversational_chat chain query st.history
        = (st.history, Except.error e) ∧
    submitQuery chain query st = (st, Except.error e) := by
  have hc : conversational_chat chain query st.history
      = (st.history, Except.error e) := by
    simp [conversational_chat, h]
  refine ⟨hc, ?_⟩
  cases st
  simp [submitQuery, conversational_chat, h]

/-- Concrete instance of C4 with a failing chain mid-conversation. -/
theorem C4_witness :
    failChain ("hi", exampleState.history)
        = Except.error (PyErr.openAIError "rate limit") ∧
    submitQuery failChain "hi" exampleState
        = (exampleState, Except.error (PyErr.openAIError "rate limit")) :=
  ⟨rfl,
    (C4_failure_preserves_history failChain "hi" exampleState
      (PyErr.openAIError "rate limit") rfl).2⟩

/-- Claim C5: when the reset flag is set, the reset branch clears the
session history to empty and the displayed conversation equals exactly the
single reissued greeting turn; the clear is one atomic state replacement. -/
theorem C5_reset_clears_history (name : String) (st : SessionState)
    (h : st.reset_chat = true) :
    (resetStep name st).history = [] ∧
    (resetStep name st).past = some [heyMsg] ∧
    (resetStep name st).generated = some [helloMsg name] ∧
    render (resetStep name st) = Except.ok [(heyMsg, helloMsg name)] := by
  have hr : resetStep name st
      = { st with
            history := []
            past := some [heyMsg]
            generated := some [helloMsg name]
            reset_chat := false } := by
    simp [resetStep, h]
  rw [hr]
  exact ⟨rfl, rfl, rfl, rfl⟩

/-- Concrete instance of C5 on a session with one extra completed turn. -/
theorem C5_witness :
    exampleState.reset_chat = true ∧
    (resetStep "doc.pdf" exampleState).history = [] ∧
    render (resetStep "doc.pdf" exampleState)
        = Except.ok [(heyMsg, helloMsg "doc.pdf")] := by
  have h := C5_reset_clears_history "doc.pdf" exampleState rfl
  exact ⟨rfl, h.1, h.2.2.2⟩

/-- Claim C7: building an index from zero segments fails (FAISS raises on an
empty document list) and stores nothing, so the builder never produces or
caches an empty-but-valid index. -/
theorem C7_empty_document_fails
    (parse : String → Except PyErr (List String))
    (embed : String → Except PyErr (List Int))
    (file filename : String) (s : FS)
    (h : parse file = Except.ok []) :
    FAISS.fromDocuments [] embed = Except.error PyErr.indexError ∧
    (storeDocEmbeds parse embed file filename s).2
        = Except.error PyErr.indexError ∧
    ∀ n, (storeDocEmbeds parse embed file filename s).1.pkl n = s.pkl n := by
  have hf : FAISS.fromDocuments [] embed = Except.error PyErr.indexError := rfl
  refine ⟨hf, ?_, ?_⟩ <;> simp [storeDocEmbeds, h, hf]

/-- Concrete instance of C7 with a loader yielding zero segments. -/
theorem C7_witness :
    parseEmpty "bytes" = Except.ok [] ∧
    (storeDocEmbeds parseEmpty embedOne "bytes" "doc.pdf" emptyFS).2
        = Except.error PyErr.indexError :=
  ⟨rfl,
    (C7_empty_document_fails parseEmpty embedOne "bytes" "doc.pdf" emptyFS
      rfl).2.1⟩

/-- Claim C8: refuted — the chain's llm is built with the literal
temperature 0.0 for every user-selected slider value, so the temperature
passed to the provider differs from the selection (here the slider default
0.618): varying the slider never varies the model configuration. -/
theorem C8_temperature_hardcoded :
    (∀ t : ℚ, (buildLLM "gpt-3.5-turbo" (temperatureSlider t)).temperature
        = 0) ∧
    (buildLLM "gpt-3.5-turbo" (temperatureSlider temperatureDefault)).temperature
        ≠ temperatureSlider temperatureDefault := by
  constructor
  · intro t
    rfl
  · simp only [buildLLM, temperatureSlider, temperatureDefault]
    norm_num

/-- Claim C1: if the pickle cache entry for the key already exists when
getDocEmbeds is called, the builder is not invoked and the state is
untouched; and across two calls with the same key and unchanged inputs, the
builder runs at most once and both calls return the same index, hence
identical retrieval results for every query. -/
theorem C1_cache_at_most_one_build
    (parse : String → Except PyErr (List String))
    (embed : String → Except PyErr (List Int))
    (file filename : String) (s : FS) (v : Index) :
    ((s.pkl (filename ++ ".pkl")).isSome = true →
        (getDocEmbeds parse embed file filename s).1 = s) ∧
    ((getDocEmbeds parse embed file filename s).2 = Except.ok v →
      (getDocEmbeds parse embed file filename
          (getDocEmbeds parse embed file filename s).1).1.builds
          ≤ s.builds + 1 ∧
      (getDocEmbeds parse embed file filename
          (getDocEmbeds parse embed file filename s).1).2 = Except.ok v ∧
      ∀ w : Index,
        (getDocEmbeds parse embed file filename
            (getDocEmbeds parse embed file filename s).1).2 = Except.ok w →
        ∀ q k, topK w q k = topK v q k) := by
  constructor
  · exact getDocEmbeds_isSome_state parse embed file filename s
  · intro h1
    have hpkl :
        (getDocEmbeds parse embed file filename s).1.pkl (filename ++ ".pkl")
          = some (pickleDump v) :=
      getDocEmbeds_ok_pkl parse embed file filename s v h1
    have h2 : getDocEmbeds parse embed file filename
        (getDocEmbeds parse embed file filename s).1
        = ((getDocEmbeds parse embed file filename s).1, Except.ok v) := by
      rw [getDocEmbeds_of_some parse embed file filename
        (getDocEmbeds parse embed file filename s).1 (pickleDump v) hpkl,
        pickleLoad_pickleDump]
    refine ⟨?_, ?_, ?_⟩
    · rw [h2]
      exact getDocEmbeds_builds_le parse embed file filename s
    · rw [h2]
    · intro w hw q k
      rw [h2] at hw
      simp at hw
      subst hw
      rfl

/-- Concrete instance of C1 on a warm cache. -/
theorem C1_witness :
    (cachedFS.pkl ("doc.pdf" ++ ".pkl")).isSome = true ∧
    (getDocEmbeds parseTwo embedOne "bytes" "doc.pdf" cachedFS).1
        = cachedFS ∧
    (getDocEmbeds parseTwo embedOne "bytes" "doc.pdf" cachedFS).2
        = Except.ok { entries := [("page one", [1])] } ∧
    (getDocEmbeds parseTwo embedOne "bytes" "doc.pdf"
        (getDocEmbeds parseTwo embedOne "bytes" "doc.pdf" cachedFS).1).2
        = Except.ok { entries := [("page one", [1])] } := by
  have h := C1_cache_at_most_one_build parseTwo embedOne "bytes" "doc.pdf"
    cachedFS { entries := [("page one", [1])] }
  exact ⟨rfl, h.1 rfl, rfl, (h.2 rfl).2.1⟩

/-- Claim C2: the index getDocEmbeds returns is the deserialization of the
serialized index persisted under the key — also on the freshly-built path —
and deserializing a serialized index answers every top-K query identically
to the original. -/
theorem C2_persisted_roundtrip
    (parse : String → Except PyErr (List String))
    (embed : String → Except PyErr (List Int))
    (file filename : String) (s : FS) (v : Index)
    (h : (getDocEmbeds parse embed file filename s).2 = Except.ok v) :
    (∃ blob,
      (getDocEmbeds parse embed file filename s).1.pkl (filename ++ ".pkl")
          = some blob ∧
      pickleLoad blob = Except.ok v) ∧
    ∀ (i : Index) (q : List Int) (k : Nat),
      ∃ j, pickleLoad (pickleDump i) = Except.ok j ∧
        topK j q k = topK i q k := by
  constructor
  · exact ⟨pickleDump v, getDocEmbeds_ok_pkl parse embed file filename s v h,
      pickleLoad_pickleDump v⟩
  · intro i q k
    exact ⟨i, pickleLoad_pickleDump i, rfl⟩

/-- Concrete instance of C2 on a cold cache (freshly-built path). -/
theorem C2_witness :
    (getDocEmbeds parseTwo embedOne "bytes" "doc.pdf" emptyFS).2
        = Except.ok { entries := [("page one", [1]), ("page two", [1])] } ∧
    ∃ blob,
      (getDocEmbeds parseTwo embedOne "bytes" "doc.pdf" emptyFS).1.pkl
          ("doc.pdf" ++ ".pkl") = some blob ∧
      pickleLoad blob
          = Except.ok { entries := [("page one", [1]), ("page two", [1])] } :=
  ⟨rfl,
    (C2_persisted_roundtrip parseTwo embedOne "bytes" "doc.pdf" emptyFS
      { entries := [("page one", [1]), ("page two", [1])] } rfl).1⟩

/-- Claim C6: refuted — on a corrupted cache entry, getDocEmbeds raises the
deserialization error straight to the catch-all handler without any rebuild:
the builder run count stays at zero instead of the claimed
rebuild-exactly-once. -/
theorem C6_counterexample :
    (getDocEmbeds parseTwo embedOne "bytes" "doc.pdf" corruptFS).2
        = Except.error PyErr.unpicklingError ∧
    (getDocEmbeds parseTwo embedOne "bytes" "doc.pdf" corruptFS).1.builds
        = 0 :=
  ⟨rfl, rfl⟩

/-- Claim C6, amended: if the cached entry for the key fails to deserialize,
getDocEmbeds propagates the deserialization error with the state unchanged —
no rebuild is attempted and the session surfaces the error text. -/
theorem C6_corrupt_no_rebuild
    (parse : String → Except PyErr (List String))
    (embed : String → Except PyErr (List Int))
    (file filename : String) (s : FS) (blob : Blob) (err : PyErr)
    (hb : s.pkl (filename ++ ".pkl") = some blob)
    (he : pickleLoad blob = Except.error err) :
    getDocEmbeds parse embed file filename s = (s, Except.error err) := by
  rw [getDocEmbeds_of_some parse embed file filename s blob hb, he]

/-- Concrete instance of amended C6 on a corrupted cache entry. -/
theorem C6_witness :
    corruptFS.pkl ("doc.pdf" ++ ".pkl") = some Blob.corrupt ∧
    pickleLoad Blob.corrupt = Except.error PyErr.unpicklingError ∧
    getDocEmbeds parseTwo embedOne "bytes" "doc.pdf" corruptFS
        = (corruptFS, Except.error PyErr.unpicklingError) :=
  ⟨rfl, rfl,
    C6_corrupt_no_rebuild parseTwo embedOne "bytes" "doc.pdf" corruptFS
      Blob.corrupt PyErr.unpicklingError rfl rfl⟩

/-- Claim C9: refuted — when PDF parsing fails, storeDocEmbeds raises before
os.remove runs, so the temporary file it created is left on disk on that
error path. -/
theorem C9_counterexample :
    (storeDocEmbeds parseFail embedOne "bytes" "doc.pdf" emptyFS).2
        = Except.error (PyErr.pdfReadError "EOF marker not found") ∧
    (storeDocEmbeds parseFail embedOne "bytes" "doc.pdf" emptyFS).1.tmp
        = ["tmpfile0"] :=
  ⟨rfl, rfl⟩

/-- Claim C9, amended: on the success path, storeDocEmbeds removes the
temporary file it created before returning, and its only durable file-system
effect is the cache entry under filename + ".pkl"; on a parse or embedding
failure the temporary file persists. -/
theorem C9_success_cleanup
    (parse : String → Except PyErr (List String))
    (embed : String → Except PyErr (List Int))
    (file filename : String) (s : FS)
    (h : (storeDocEmbeds parse embed file filename s).2 = Except.ok ()) :
    (storeDocEmbeds parse embed file filename s).1.tmp = s.tmp ∧
    (∃ vec : Index,
      (storeDocEmbeds parse embed file filename s).1.pkl (filename ++ ".pkl")
        = some (pickleDump vec)) ∧
    ∀ n, n ≠ filename ++ ".pkl" →
      (storeDocEmbeds parse embed file filename s).1.pkl n = s.pkl n := by
  obtain ⟨vec, h1, h2, h3⟩ :=
    storeDocEmbeds_ok_state parse embed file filename s h
  exact ⟨h2, ⟨vec, h1⟩, h3⟩

/-- Concrete instance of amended C9 on a successful build. -/
theorem C9_witness :
    (storeDocEmbeds parseTwo embedOne "bytes" "doc.pdf" emptyFS).2
        = Except.ok () ∧
    (storeDocEmbeds parseTwo embedOne "bytes" "doc.pdf" emptyFS).1.tmp
        = emptyFS.tmp :=
  ⟨rfl,
    (C9_success_cleanup parseTwo embedOne "bytes" "doc.pdf" emptyFS rfl).1⟩

/-- Claim C10: after greeting initialization, after a successful submitted
ask, and after reset, the past and generated lists are present with equal
lengths, so the rendering loop's paired indexing past[i]/generated[i] for
i below the generated length is always in bounds. -/
theorem C10_paired_lists
    (name input : String)
    (chain : String × List (String × String) → Except PyErr ChainResult)
    (st : SessionState) :
    ((st.past = none ∧ st.generated = none) ∨ InvPG st →
        InvPG (initGreeting name st)) ∧
    (InvPG st → ∀ out, (submitQuery chain input st).2 = Except.ok out →
        InvPG (submitQuery chain input st).1) ∧
    (st.reset_chat = true → InvPG (resetStep name st)) ∧
    (InvPG st → ∃ l, render st = Except.ok l) := by
  refine ⟨?_, ?_, ?_, render_ok_of_inv st⟩
  · rintro (⟨hp, hg⟩ | ⟨p, g, hp, hg, hlen⟩)
    · refine ⟨[heyMsg], [helloMsg name], ?_, ?_⟩ <;>
        simp [initGreeting, hp, hg]
    · refine ⟨p, g, ?_, ?_⟩ <;> simp [initGreeting, hp, hg, hlen]
  · rintro ⟨p, g, hp, hg, hlen⟩ out hout
    rcases hc : chain (input, st.history) with e | result
    · simp [submitQuery, conversational_chat, hc] at hout
    · refine ⟨p ++ [input], g ++ [result.answer], ?_, ?_, ?_⟩ <;>
        simp [submitQuery, conversational_chat, hc, hp, hg, hlen]
  · intro h
    exact ⟨[heyMsg], [helloMsg name], by simp [resetStep, h],
      by simp [resetStep, h], rfl⟩

/-- Concrete instance of C10 mid-conversation. -/
theorem C10_witness :
    InvPG exampleState ∧
    InvPG (initGreeting "doc.pdf" exampleState) ∧
    (submitQuery stubChain "q" exampleState).2 = Except.ok "stub answer" ∧
    InvPG (submitQuery stubChain "q" exampleState).1 ∧
    exampleState.reset_chat = true ∧
    InvPG (resetStep "doc.pdf" exampleState) ∧
    ∃ l, render exampleState = Except.ok l := by
  have hinv : InvPG exampleState :=
    ⟨[heyMsg, "q0"], [helloMsg "doc.pdf", "a0"], rfl, rfl, rfl⟩
  have hthm := C10_paired_lists "doc.pdf" "q" stubChain exampleState
  exact ⟨hinv, hthm.1 (Or.inr hinv), rfl, hthm.2.1 hinv "stub answer" rfl,
    rfl, hthm.2.2.1 rfl, hthm.2.2.2 hinv⟩

end ChatBotPDF
